import Mathlib

/-!
Shallow embedding of the terrier system catalog (`src/catalog/catalog.cpp`)
and the parts of its handle layer that the catalog uses.  Pure state is
threaded explicitly; C++ functions that can throw or crash return `Except`
or a dedicated outcome type.  Definitions whose C++ source is not among the
examined files are marked `Modelled from the spec:` in their doc comment.
-/

namespace TerrierCatalog

/-- SQL type tags (`type::TypeId`) for the handful of primitive kinds the
catalog stores. -/
inductive TypeId
  | BOOLEAN
  | TINYINT
  | SMALLINT
  | INTEGER
  | BIGINT
  | DECIMAL
  | DATE
  | TIMESTAMP
  | VARCHAR
deriving DecidableEq, Repr

/-- SQL values as produced by `type::ValueFactory` in the catalog code:
integers, booleans, varchars and typed nulls. -/
inductive Value
  | integer : Int → Value
  | boolean : Bool → Value
  | varchar : String → Value
  | null : TypeId → Value
deriving DecidableEq, Repr

/-- One `(column name, column type)` pair of a schema (`Catalog::SchemaCols`). -/
structure SchemaCols where
  col_name : String
  type_id : TypeId
deriving DecidableEq, Repr

/-- One column of a relation schema: name, type, nullable flag, column oid. -/
structure Column where
  name : String
  type_id : TypeId
  nullable : Bool
  oid : Nat
deriving DecidableEq, Repr

/-- A catalog relation object (`catalog::SqlTableRW`): its table oid, its
ordered column schema, and its rows in insertion order. -/
structure SqlTableRW where
  oid : Nat
  cols : List Column
  rows : List (List Value)
deriving DecidableEq, Repr

/-- `SqlTableRW::DefineColumn`: append one column to the schema. -/
def SqlTableRW.DefineColumn (t : SqlTableRW) (name : String) (ty : TypeId)
    (nullable : Bool) (col_oid : Nat) : SqlTableRW :=
  { t with cols := t.cols ++ [⟨name, ty, nullable, col_oid⟩] }

/-- `SqlTableRW::InsertRow`: append one row. -/
def SqlTableRW.InsertRow (t : SqlTableRW) (row : List Value) : SqlTableRW :=
  { t with rows := t.rows ++ [row] }

/-- First-match association lookup, the behaviour of `unordered_map::find`
restricted to the keys actually present. -/
def assocFind? {κ β : Type} [DecidableEq κ] (k : κ) : List (κ × β) → Option β
  | [] => none
  | (k2, v) :: rest => if k = k2 then some v else assocFind? k rest

/-- Insert-or-overwrite, the behaviour of `unordered_map::operator[] =`. -/
def assocInsert {κ β : Type} [DecidableEq κ] (k : κ) (v : β) :
    List (κ × β) → List (κ × β)
  | [] => [(k, v)]
  | (k2, v2) :: rest =>
    if k = k2 then (k, v) :: rest else (k2, v2) :: assocInsert k v rest

/-- Erase by key, the behaviour of `unordered_map::erase`. -/
def assocErase {κ β : Type} [DecidableEq κ] (k : κ) :
    List (κ × β) → List (κ × β)
  | [] => []
  | (k2, v2) :: rest => if k = k2 then rest else (k2, v2) :: assocErase k rest

/-- Add a table oid to a per-database id-map entry if it is not already
present (`map_[db][toid] = ptr` on a fresh key appends). -/
def natInsert (x : Nat) (l : List Nat) : List Nat :=
  if x ∈ l then l else l ++ [x]

/-- The 32-bit modulus: `Catalog::oid_` is a `uint32_t`. -/
def UINT32_MOD : Nat := 4294967296

/-- Modelled from the spec: the identifier allocator's fixed start constant
(`START_OID`, defined in a header outside the examined sources; the spec
fixes only that it is a constant). -/
def START_OID : Nat := 1001

/-- Modelled from the spec: the well-known default database identifier
(`DEFAULT_DATABASE_OID`, defined outside the examined sources). -/
def DEFAULT_DATABASE_OID : Nat := 1

/-- The catalog's in-memory state: the oid counter, the heap of catalog-owned
relation objects keyed by table oid (shared-pointer targets), the
`pg_database_` / `pg_tablespace_` members (as the oids of their heap
objects), and the two registry maps `map_` and `name_map_`. -/
structure Catalog where
  oid_ : Nat
  store : List (Nat × SqlTableRW)
  pg_database_ : Nat
  pg_tablespace_ : Nat
  map_ : List (Nat × List Nat)
  name_map_ : List (Nat × List (String × Nat))
deriving DecidableEq, Repr

/-- `Catalog::GetNextOid`: `return oid_++;` on a `uint32_t` member. -/
def Catalog.GetNextOid (c : Catalog) : Nat × Catalog :=
  (c.oid_, { c with oid_ := (c.oid_ + 1) % UINT32_MOD })

/-- The values returned by `n` successive `GetNextOid` calls on `c`. -/
def Catalog.allocList : Catalog → Nat → List Nat
  | _, 0 => []
  | c, n + 1 =>
    let p := c.GetNextOid
    p.1 :: p.2.allocList n

/-- Dereference a heap table object (`shared_ptr::get`). -/
def Catalog.getTable (c : Catalog) (toid : Nat) : Option SqlTableRW :=
  assocFind? toid c.store

/-- Overwrite a heap table object. -/
def Catalog.setTable (c : Catalog) (toid : Nat) (t : SqlTableRW) : Catalog :=
  { c with store := assocInsert toid t c.store }

/-- Insert a row through a heap reference; a reference that is not in the
heap never arises in the modelled runs and is a no-op here. -/
def Catalog.insertRow (c : Catalog) (toid : Nat) (row : List Value) : Catalog :=
  match assocFind? toid c.store with
  | some t => c.setTable toid (t.InsertRow row)
  | none => c

/-- `map_[db][toid] = ptr`: register a table oid in the id map. -/
def Catalog.mapInsert (c : Catalog) (db toid : Nat) : Catalog :=
  { c with map_ := assocInsert db (natInsert toid ((assocFind? db c.map_).getD [])) c.map_ }

/-- `name_map_[db][name] = toid`: register a relation name in the name map. -/
def Catalog.nameMapInsert (c : Catalog) (db : Nat) (name : String) (toid : Nat) : Catalog :=
  { c with name_map_ := assocInsert db (assocInsert name toid ((assocFind? db c.name_map_).getD [])) c.name_map_ }

/-- Register a freshly built relation object: put it on the heap and enter it
in both registry maps (the `map_[db][oid] = tbl; name_map_[db][name] = oid`
pattern shared by every handle `Create`). -/
def Catalog.registerTable (c : Catalog) (db : Nat) (name : String) (t : SqlTableRW) : Catalog :=
  ((c.setTable t.oid t).mapInsert db t.oid).nameMapInsert db name t.oid

/-- `Catalog::SetUnusedColumns`: append a type-appropriate default for each
unused schema column; throws `NOT_IMPLEMENTED_EXCEPTION` on any other type. -/
def SetUnusedColumns (vec : List Value) : List SchemaCols → Except String (List Value)
  | [] => .ok vec
  | col :: rest =>
    match col.type_id with
    | .BOOLEAN => SetUnusedColumns (vec ++ [.boolean false]) rest
    | .INTEGER => SetUnusedColumns (vec ++ [.integer 0]) rest
    | .VARCHAR => SetUnusedColumns (vec ++ [.null .VARCHAR]) rest
    | _ => .error "unsupported type in SetUnusedSchemaColumns (by vec)"

/-- The default value `SetUnusedColumns` produces for a supported column. -/
def defaultValueOf (col : SchemaCols) : Value :=
  match col.type_id with
  | .BOOLEAN => .boolean false
  | .INTEGER => .integer 0
  | _ => .null .VARCHAR

/-- Whether a column type has a default in `SetUnusedColumns`. -/
def supportedUnusedType (col : SchemaCols) : Prop :=
  col.type_id = .BOOLEAN ∨ col.type_id = .INTEGER ∨ col.type_id = .VARCHAR

instance (col : SchemaCols) : Decidable (supportedUnusedType col) := by
  unfold supportedUnusedType
  infer_instance

/-- Outcome of a registry lookup.  `crash` models an uncaught C++ failure
(`std::out_of_range` from `std::unordered_map::at`, or undefined behaviour)
that terminates the process; `notFound` is the typed recoverable condition
the spec asks for. -/
inductive LookupResult
  | found : SqlTableRW → LookupResult
  | notFound
  | crash : String → LookupResult
deriving DecidableEq, Repr

/-- `Catalog::GetDatabaseCatalog(db_oid, table_oid)`:
`return map_.at(db_oid).at(table_oid);` — both `at` calls throw
`std::out_of_range` on a missing key, uncaught by the catalog. -/
def Catalog.GetDatabaseCatalogById (c : Catalog) (db toid : Nat) : LookupResult :=
  match assocFind? db c.map_ with
  | none => .crash "std::out_of_range: map_::at"
  | some tids =>
    if toid ∈ tids then
      match c.getTable toid with
      | some t => .found t
      | none => .crash "dangling table reference"
    else .crash "std::out_of_range: table map::at"

/-- `Catalog::GetDatabaseCatalog(db_oid, table_name)`:
`return GetDatabaseCatalog(db_oid, name_map_.at(db_oid).at(table_name));`. -/
def Catalog.GetDatabaseCatalogByName (c : Catalog) (db : Nat) (name : String) : LookupResult :=
  match assocFind? db c.name_map_ with
  | none => .crash "std::out_of_range: name_map_::at"
  | some nm =>
    match assocFind? name nm with
    | none => .crash "std::out_of_range: name map::at"
    | some toid => c.GetDatabaseCatalogById db toid

/-- Adapt a lookup outcome to `Except` for use inside bootstrap plumbing. -/
def LookupResult.toExcept : LookupResult → Except String SqlTableRW
  | .found t => .ok t
  | .notFound => .error "NotFound"
  | .crash msg => .error msg

/-- Modelled from the spec: the used columns of `pg_database`
(`DatabaseHandle::schema_cols_`, declared in `database_handle.h`, not among
the examined sources): oid and name, per spec section 3. -/
def DatabaseHandle_schema_cols : List SchemaCols :=
  [⟨"oid", .INTEGER⟩, ⟨"datname", .VARCHAR⟩]

/-- Modelled from the spec: the reserved/unused columns of `pg_database`
(`DatabaseHandle::unused_schema_cols_`, not among the examined sources).
The spec fixes only that such columns exist and carry boolean / integer /
varchar types; a representative fixed list is used. -/
def DatabaseHandle_unused_schema_cols : List SchemaCols :=
  [⟨"datdba", .INTEGER⟩, ⟨"datacl", .VARCHAR⟩]

/-- Modelled from the spec: the reserved columns of `pg_tablespace`
(`Catalog::pg_tablespace_unused_cols_`, declared in `catalog.h`, not among
the examined sources); a representative fixed list. -/
def pg_tablespace_unused_cols : List SchemaCols :=
  [⟨"spcowner", .INTEGER⟩, ⟨"spcacl", .VARCHAR⟩]

/-- Modelled from the spec: the reserved columns of `pg_type`
(`Catalog::pg_type_unused_cols`, declared in `catalog.h`, not among the
examined sources); a representative fixed list. -/
def pg_type_unused_cols : List SchemaCols :=
  [⟨"typbyval", .BOOLEAN⟩]

/-- `Catalog::AddUnusedSchemaColumns`: define one column per entry, each
with a freshly allocated column oid and `nullable = false`. -/
def Catalog.AddUnusedSchemaColumns : Catalog → SqlTableRW → List SchemaCols → SqlTableRW × Catalog
  | c, t, [] => (t, c)
  | c, t, col :: rest =>
    let p := c.GetNextOid
    Catalog.AddUnusedSchemaColumns p.2 (t.DefineColumn col.col_name col.type_id false p.1) rest

/-- `Catalog::CreatePGDatabase(table_oid)`: build the `pg_database` relation
(used columns then unused columns, each with a fresh column oid), create its
storage, remember it in the `pg_database_` member and give the default
database an (empty) id-map entry. -/
def Catalog.CreatePGDatabase (c : Catalog) (table_oid : Nat) : Catalog :=
  let t0 : SqlTableRW := ⟨table_oid, [], []⟩
  let p1 := c.AddUnusedSchemaColumns t0 DatabaseHandle_schema_cols
  let p2 := p1.2.AddUnusedSchemaColumns p1.1 DatabaseHandle_unused_schema_cols
  let c2 := { p2.2 with store := assocInsert table_oid p2.1 p2.2.store, pg_database_ := table_oid }
  { c2 with map_ := assocInsert DEFAULT_DATABASE_OID [] c2.map_ }

/-- `Catalog::PopulatePGDatabase`: insert the row for the default database
`terrier`, filling the unused columns with defaults. -/
def Catalog.PopulatePGDatabase (c : Catalog) : Except String Catalog := do
  let row := [Value.integer (DEFAULT_DATABASE_OID : Int), Value.varchar "terrier"]
  let row ← SetUnusedColumns row DatabaseHandle_unused_schema_cols
  pure (c.insertRow c.pg_database_ row)

/-- `Catalog::CreatePGTablespace(table_oid)`: build the `pg_tablespace`
relation (oid, spcname, then unused columns) and remember it in the
`pg_tablespace_` member.  It is not entered in the registry maps. -/
def Catalog.CreatePGTablespace (c : Catalog) (table_oid : Nat) : Catalog :=
  let t0 : SqlTableRW := ⟨table_oid, [], []⟩
  let p1 := c.GetNextOid
  let t1 := t0.DefineColumn "oid" .INTEGER false p1.1
  let p2 := p1.2.GetNextOid
  let t2 := t1.DefineColumn "spcname" .VARCHAR false p2.1
  let p3 := p2.2.AddUnusedSchemaColumns t2 pg_tablespace_unused_cols
  { p3.2 with store := assocInsert table_oid p3.1 p3.2.store, pg_tablespace_ := table_oid }

/-- `Catalog::PopulatePGTablespace`: allocate the `pg_global` and
`pg_default` tablespace oids (in that order), then insert the `pg_global`
row followed by the `pg_default` row. -/
def Catalog.PopulatePGTablespace (c : Catalog) : Except String Catalog := do
  let pGlobal := c.GetNextOid
  let pDefault := pGlobal.2.GetNextOid
  let c := pDefault.2
  let row1 := [Value.integer (pGlobal.1 : Int), Value.varchar "pg_global"]
  let row1 ← SetUnusedColumns row1 pg_tablespace_unused_cols
  let c := c.insertRow c.pg_tablespace_ row1
  let row2 := [Value.integer (pDefault.1 : Int), Value.varchar "pg_default"]
  let row2 ← SetUnusedColumns row2 pg_tablespace_unused_cols
  pure (c.insertRow c.pg_tablespace_ row2)

/-- `Catalog::AddColumnsToPGAttribute`: for each column of `tbl`, insert an
attribute-descriptor row (column oid, owning table oid, column name, and
three placeholder zeros) into the database's `pg_attribute` relation. -/
def Catalog.AddColumnsToPGAttribute (c : Catalog) (db : Nat) (tbl : SqlTableRW) : Except String Catalog := do
  let pg_attribute ← (c.GetDatabaseCatalogByName db "pg_attribute").toExcept
  let rows := tbl.cols.map (fun col =>
    [Value.integer (col.oid : Int), Value.integer (tbl.oid : Int), Value.varchar col.name,
     Value.integer 0, Value.integer 0, Value.integer 0])
  pure (rows.foldl (fun acc row => acc.insertRow pg_attribute.oid row) c)

/-- `Catalog::CreatePGAttribute`: build the `pg_attribute` relation (six
columns with pre-allocated column oids, the last three nullable), register
it, then insert attribute rows for `pg_attribute` itself and for the global
`pg_database` and `pg_tablespace` relations. -/
def Catalog.CreatePGAttribute (c : Catalog) (db : Nat) : Except String Catalog := do
  let pTbl := c.GetNextOid
  let pg_attribute_oid := pTbl.1
  let o1 := pTbl.2.GetNextOid
  let o2 := o1.2.GetNextOid
  let o3 := o2.2.GetNextOid
  let o4 := o3.2.GetNextOid
  let o5 := o4.2.GetNextOid
  let o6 := o5.2.GetNextOid
  let c := o6.2
  let t : SqlTableRW :=
    ((((((⟨pg_attribute_oid, [], []⟩ : SqlTableRW).DefineColumn "oid" .INTEGER false o1.1).DefineColumn
        "attrelid" .INTEGER false o2.1).DefineColumn "attname" .VARCHAR false o3.1).DefineColumn
        "atttypid" .INTEGER true o4.1).DefineColumn "attlen" .INTEGER true o5.1).DefineColumn
        "attnum" .INTEGER true o6.1
  let c := c.registerTable db "pg_attribute" t
  let c ← c.AddColumnsToPGAttribute db t
  let pgdb ← (c.GetDatabaseCatalogByName db "pg_database").toExcept
  let c ← c.AddColumnsToPGAttribute db pgdb
  let pgts ← (c.GetDatabaseCatalogByName db "pg_tablespace").toExcept
  c.AddColumnsToPGAttribute db pgts

/-- Modelled from the spec: `NamespaceHandle::Create` (not among the
examined sources): allocate a table oid, define the `pg_namespace` schema
(oid, name — spec section 3), create its storage and register it in both
registry maps under the given name. -/
def NamespaceHandle_Create (c : Catalog) (db : Nat) (name : String) : Catalog :=
  let pTbl := c.GetNextOid
  let o1 := pTbl.2.GetNextOid
  let o2 := o1.2.GetNextOid
  let t := ((⟨pTbl.1, [], []⟩ : SqlTableRW).DefineColumn "oid" .INTEGER false o1.1).DefineColumn
      "nspname" .VARCHAR false o2.1
  o2.2.registerTable db name t

/-- Modelled from the spec: `NamespaceHandle::AddEntry` (not among the
examined sources): allocate a namespace oid via the allocator and insert the
row `(oid, name)` into the database's `pg_namespace` relation
(spec section 4.3: `add_entry` allocates an identifier and inserts a typed
row in schema order). -/
def NamespaceHandle_AddEntry (c : Catalog) (db : Nat) (name : String) : Except String Catalog := do
  let pg_namespace ← (c.GetDatabaseCatalogByName db "pg_namespace").toExcept
  let p := c.GetNextOid
  pure (p.2.insertRow pg_namespace.oid [Value.integer (p.1 : Int), Value.varchar name])

/-- Modelled from the spec: namespace point lookup by name
(`NamespaceHandle::GetNamespaceEntry` / `NameToOid`, not among the examined
sources): scan the database's `pg_namespace` rows for a matching name and
decode the oid column; `none` when absent (the handle returns a null
entry). -/
def NamespaceHandle_NameToOid (c : Catalog) (db : Nat) (name : String) : Option Nat :=
  match c.GetDatabaseCatalogByName db "pg_namespace" with
  | .found t =>
    match t.rows.find? (fun r => decide (r.get? 1 = some (.varchar name))) with
    | some r =>
      match r.get? 0 with
      | some (.integer o) => some o.toNat
      | _ => none
    | none => none
  | _ => none

/-- Modelled from the spec: tablespace point lookup by name
(`TablespaceHandle::GetTablespaceEntry`, not among the examined sources):
scan `pg_tablespace` rows for a matching name and decode the oid column. -/
def TablespaceHandle_NameToOid (c : Catalog) (name : String) : Option Nat :=
  match c.getTable c.pg_tablespace_ with
  | some t =>
    match t.rows.find? (fun r => decide (r.get? 1 = some (.varchar name))) with
    | some r =>
      match r.get? 0 with
      | some (.integer o) => some o.toNat
      | _ => none
    | none => none
  | none => none

/-- `Catalog::CreatePGNameSpace`: create the `pg_namespace` relation through
its handle, then insert the fixed `pg_catalog` and `public` rows. -/
def Catalog.CreatePGNameSpace (c : Catalog) (db : Nat) : Except String Catalog := do
  let c := NamespaceHandle_Create c db "pg_namespace"
  let c ← NamespaceHandle_AddEntry c db "pg_catalog"
  NamespaceHandle_AddEntry c db "public"

/-- Modelled from the spec: `ClassHandle::Create` (not among the examined
sources): allocate a table oid, define the `pg_class` schema — the
storage-handle encoding, oid, name, namespace id and tablespace id of spec
section 3, in the column order fixed by `Catalog::DestroyDB`'s use of
column indices 0 (encoded pointer) and 3 (namespace id) and by
`ClassHandle::AddEntry`'s argument order — and register it in both maps. -/
def ClassHandle_Create (c : Catalog) (db : Nat) (name : String) : Catalog :=
  let pTbl := c.GetNextOid
  let o1 := pTbl.2.GetNextOid
  let o2 := o1.2.GetNextOid
  let o3 := o2.2.GetNextOid
  let o4 := o3.2.GetNextOid
  let o5 := o4.2.GetNextOid
  let t := (((((⟨pTbl.1, [], []⟩ : SqlTableRW).DefineColumn "__ptr" .BIGINT false o1.1).DefineColumn
      "oid" .INTEGER false o2.1).DefineColumn "relname" .VARCHAR false o3.1).DefineColumn
      "relnamespace" .INTEGER false o4.1).DefineColumn "reltablespace" .INTEGER false o5.1
  o5.2.registerTable db name t

/-- Modelled from the spec: `ClassHandle::AddEntry` (not among the examined
sources): insert one descriptor row `(encoded pointer, oid, name,
namespace id, tablespace id)` into the database's `pg_class` relation, in
the argument order of the call sites in `Catalog::CreatePGClass`. -/
def ClassHandle_AddEntry (c : Catalog) (db : Nat) (ptr : Int) (oid : Nat) (name : String)
    (ns ts : Nat) : Except String Catalog := do
  let pg_class ← (c.GetDatabaseCatalogByName db "pg_class").toExcept
  pure (c.insertRow pg_class.oid
    [Value.integer ptr, Value.integer (oid : Int), Value.varchar name,
     Value.integer (ns : Int), Value.integer (ts : Int)])

/-- The raw address a relation object is encoded as inside its `pg_class`
row (`reinterpret_cast<uint64_t>(shared_ptr.get())`).  Object addresses are
modelled by table oids: distinct live objects have distinct addresses. -/
def tableAddr (t : SqlTableRW) : Int := (t.oid : Int)

/-- `Catalog::CreatePGClass`: create the `pg_class` relation through its
handle, resolve the `pg_catalog` namespace oid and the `pg_global` /
`pg_default` tablespace oids by name, then insert one descriptor row each
for `pg_database`, `pg_tablespace`, `pg_namespace`, `pg_class` and
`pg_attribute`, every one tagged with the `pg_catalog` namespace. -/
def Catalog.CreatePGClass (c : Catalog) (db : Nat) : Except String Catalog := do
  let c := ClassHandle_Create c db "pg_class"
  let catNs ← match NamespaceHandle_NameToOid c db "pg_catalog" with
    | some n => pure n
    | none => Except.error "null namespace entry dereference"
  let tsGlobal ← match TablespaceHandle_NameToOid c "pg_global" with
    | some n => pure n
    | none => Except.error "null tablespace entry dereference"
  let tsDefault ← match TablespaceHandle_NameToOid c "pg_default" with
    | some n => pure n
    | none => Except.error "null tablespace entry dereference"
  let pgdb ← (c.GetDatabaseCatalogByName db "pg_database").toExcept
  let c ← ClassHandle_AddEntry c db (tableAddr pgdb) pgdb.oid "pg_database" catNs tsGlobal
  let pgts ← (c.GetDatabaseCatalogByName db "pg_tablespace").toExcept
  let c ← ClassHandle_AddEntry c db (tableAddr pgts) pgts.oid "pg_tablespace" catNs tsGlobal
  let pgns ← (c.GetDatabaseCatalogByName db "pg_namespace").toExcept
  let c ← ClassHandle_AddEntry c db (tableAddr pgns) pgns.oid "pg_namespace" catNs tsDefault
  let pgcls ← (c.GetDatabaseCatalogByName db "pg_class").toExcept
  let c ← ClassHandle_AddEntry c db (tableAddr pgcls) pgcls.oid "pg_class" catNs tsDefault
  let pgattr ← (c.GetDatabaseCatalogByName db "pg_attribute").toExcept
  ClassHandle_AddEntry c db (tableAddr pgattr) pgattr.oid "pg_attribute" catNs tsDefault

/-- Modelled from the spec: `AttrDefHandle::Create` (not among the examined
sources): allocate a table oid, define the attribute-default schema and
register the relation in both maps, reusing the shared handle pattern
(spec sections 3 and 4.4). -/
def AttrDefHandle_Create (c : Catalog) (db : Nat) (name : String) : Catalog :=
  let pTbl := c.GetNextOid
  let o1 := pTbl.2.GetNextOid
  let o2 := o1.2.GetNextOid
  let o3 := o2.2.GetNextOid
  let o4 := o3.2.GetNextOid
  let t := ((((⟨pTbl.1, [], []⟩ : SqlTableRW).DefineColumn "oid" .INTEGER false o1.1).DefineColumn
      "adrelid" .INTEGER false o2.1).DefineColumn "adnum" .INTEGER false o3.1).DefineColumn
      "adbin" .VARCHAR false o4.1
  o4.2.registerTable db name t

/-- `Catalog::BootstrapDatabase`: register the global `pg_database` and
`pg_tablespace` relations for the database, then create `pg_attribute`,
`pg_namespace`, `pg_class` and `pg_attrdef`, in this exact order. -/
def Catalog.BootstrapDatabase (c : Catalog) (db : Nat) : Except String Catalog := do
  let c := (c.mapInsert db c.pg_database_).mapInsert db c.pg_tablespace_
  let c := (c.nameMapInsert db "pg_database" c.pg_database_).nameMapInsert db "pg_tablespace" c.pg_tablespace_
  let c ← c.CreatePGAttribute db
  let c ← c.CreatePGNameSpace db
  let c ← c.CreatePGClass db
  pure (AttrDefHandle_Create c db "pg_attrdef")

/-- `Catalog::Bootstrap`: inside one transaction, create and populate
`pg_database` and `pg_tablespace`, bootstrap the default database, then
commit.  The registry maps are plain process memory; commit makes the
inserted rows durable and adds nothing else. -/
def Catalog.Bootstrap (c : Catalog) : Except String Catalog := do
  let p1 := c.GetNextOid
  let c := p1.2.CreatePGDatabase p1.1
  let c ← c.PopulatePGDatabase
  let p2 := c.GetNextOid
  let c := p2.2.CreatePGTablespace p2.1
  let c ← c.PopulatePGTablespace
  c.BootstrapDatabase DEFAULT_DATABASE_OID

/-- The catalog state a fresh `Catalog` object starts from: counter at
`START_OID`, empty heap and registry (`Catalog::Catalog` before
`Bootstrap()` runs). -/
def initCatalog : Catalog := ⟨START_OID, [], 0, 0, [], []⟩

/-- The result of running the constructor's bootstrap. -/
def BootstrapResult : Except String Catalog := initCatalog.Bootstrap

/-- The bootstrapped catalog (the constructor aborts the process instead of
returning when bootstrap fails, so the fallback default is never the
returned state of a constructed catalog). -/
def bootCatalog : Catalog := BootstrapResult.toOption.getD initCatalog

/-- `Catalog::AddEntryToPGDatabase`: build the row `(oid, name, defaults)`,
insert it into `pg_database`, and give the new database an empty id-map
entry (`map_[oid] = {}`; nothing is entered in `name_map_`). -/
def Catalog.AddEntryToPGDatabase (c : Catalog) (oid : Nat) (name : String) : Except String Catalog := do
  let entry := [Value.integer (oid : Int), Value.varchar name]
  let entry ← SetUnusedColumns entry DatabaseHandle_unused_schema_cols
  let c := c.insertRow c.pg_database_ entry
  pure { c with map_ := assocInsert oid [] c.map_ }

/-- `Catalog::CreateDatabase`: allocate a fresh database oid and call
`AddEntryToPGDatabase`.  The C++ function returns `void`; its return value
is therefore `Unit`. -/
def Catalog.CreateDatabase (c : Catalog) (name : String) : Except String (Catalog × Unit) := do
  let p := c.GetNextOid
  let c ← p.2.AddEntryToPGDatabase p.1 name
  pure (c, ())

/-- Outcome of `Catalog::DeleteDatabase`.  `crash` models undefined
behaviour / process termination (here: dereferencing the null entry pointer
returned for an unknown name); `notFound` is the typed condition the spec
asks for and the code never produces. -/
inductive OpResult
  | ok : Catalog → OpResult
  | notFound
  | crash : String → OpResult
deriving DecidableEq, Repr

/-- Modelled from the spec: `DatabaseHandle::GetDatabaseEntry(txn, name)`
(not among the examined sources): transactional point lookup — scan
`pg_database` for a row whose name column matches and decode its oid column;
`none` (a null entry pointer) when absent, per spec section 4.3. -/
def DatabaseHandle_GetDatabaseEntry (c : Catalog) (name : String) : Option (Nat × List Value) :=
  match c.getTable c.pg_database_ with
  | none => none
  | some t =>
    match t.rows.find? (fun r => decide (r.get? 1 = some (.varchar name))) with
    | none => none
    | some r =>
      match r.get? 0 with
      | some (.integer o) => some (o.toNat, r)
      | _ => none

/-- Modelled from the spec: `DatabaseHandle::DeleteEntry` (not among the
examined sources): remove the entry's underlying row from `pg_database`
(spec section 4.3: `delete_entry` removes the underlying row). -/
def DatabaseHandle_DeleteEntry (c : Catalog) (oid : Nat) : Catalog :=
  match c.getTable c.pg_database_ with
  | none => c
  | some t =>
    c.setTable c.pg_database_
      { t with rows := t.rows.eraseP (fun r => decide (r.get? 0 = some (.integer (oid : Int)))) }

/-- `Catalog::DeleteDatabase`: look the database up by name, read its oid
from the entry (dereferencing the entry pointer without a null check),
delete the `pg_database` row, and erase the database from both registry
maps. -/
def Catalog.DeleteDatabase (c : Catalog) (db_name : String) : OpResult :=
  match DatabaseHandle_GetDatabaseEntry c db_name with
  | none => .crash "null entry dereference: GetDatabaseOid"
  | some (oid, _) =>
    let c := DatabaseHandle_DeleteEntry c oid
    .ok { c with map_ := assocErase oid c.map_, name_map_ := assocErase oid c.name_map_ }

/-- Side effects `Catalog::DestroyDB` could perform, as an explicit trace:
destroying an encoded relation object, deleting a stored row, erasing a
registry entry, or committing its transaction.  The reclamation pass emits
only `destroyObject` events. -/
inductive Action
  | destroyObject : Int → Action
  | deleteRow : Nat → List Value → Action
  | eraseRegistry : Nat → Action
  | commitTxn
deriving DecidableEq, Repr

/-- Decode the namespace-id column of a `pg_class` row, as `DestroyDB` does:
the byte pattern at column index 3 reinterpreted as a `uint32_t` (a
non-integer byte pattern decodes to garbage, modelled as 0). -/
def rowNs (r : List Value) : Nat :=
  match r.get? 3 with
  | some (.integer n) => n.toNat % UINT32_MOD
  | _ => 0

/-- Decode the encoded-pointer column of a `pg_class` row, as `DestroyDB`
does: the byte pattern at column index 0 reinterpreted as an `int64_t`. -/
def rowPtr (r : List Value) : Int :=
  match r.get? 0 with
  | some (.integer n) => n
  | _ => 0

/-- Decode the tablespace-id column of a `pg_class` row (column index 4). -/
def rowTs (r : List Value) : Nat :=
  match r.get? 4 with
  | some (.integer n) => n.toNat % UINT32_MOD
  | _ => 0

/-- The scan loop of `Catalog::DestroyDB`: for each `pg_class` row whose
namespace id differs from `pg_catalog`'s, delete the relation object the
row encodes; rows in the catalog namespace are skipped. -/
def destroyLoop (catOid : Nat) : List (List Value) → List Action
  | [] => []
  | r :: rest =>
    if rowNs r ≠ catOid then .destroyObject (rowPtr r) :: destroyLoop catOid rest
    else destroyLoop catOid rest

/-- `Catalog::DestroyDB`: begin a transaction, scan the database's
`pg_class` relation, resolve the `pg_catalog` namespace oid by name, run
the reclamation loop, free the scan buffer and delete the (uncommitted)
transaction.  The catalog state is returned unchanged together with the
trace of destruction events. -/
def Catalog.DestroyDB (c : Catalog) (oid : Nat) : Except String (Catalog × List Action) :=
  match (c.GetDatabaseCatalogByName oid "pg_class").toExcept with
  | .error e => .error e
  | .ok pg_class =>
    match NamespaceHandle_NameToOid c oid "pg_catalog" with
    | none => .error "null namespace entry dereference"
    | some catOid => .ok (c, destroyLoop catOid pg_class.rows)

/-- Modelled from the spec: `type::TypeUtil::GetTypeSize` (not among the
examined sources): the storage length recorded for each built-in type
(`pg_type`'s length column; exact byte counts are the storage
collaborator's concern). -/
def TypeUtil_GetTypeSize : TypeId → Int
  | .BOOLEAN => 1
  | .TINYINT => 1
  | .SMALLINT => 2
  | .INTEGER => 4
  | .BIGINT => 8
  | .DECIMAL => 8
  | .DATE => 4
  | .TIMESTAMP => 8
  | .VARCHAR => 0

/-- One built-in type insertion of `Catalog::CreatePGType`: allocate a type
oid and insert `(oid, name, namespace, length, "b")`. -/
def Catalog.insertTypeRow (c : Catalog) (toid : Nat) (name : String) (ns : Nat) (len : Int) : Catalog :=
  let p := c.GetNextOid
  p.2.insertRow toid
    [Value.integer (p.1 : Int), Value.varchar name, Value.integer (ns : Int),
     Value.integer len, Value.varchar "b"]

/-- `Catalog::CreatePGType`: build the `pg_type` relation (oid, typname,
typnamespace, typlen, typtype, plus unused columns), register it, resolve
the `pg_catalog` namespace oid, and insert one row per built-in primitive
type in source order: boolean, tinyint, smallint, integer, date, bigint,
decimal, timestamp, varchar (varchar with length -1).  This procedure is
defined by the catalog but never invoked by `Bootstrap` /
`BootstrapDatabase`. -/
def Catalog.CreatePGType (c : Catalog) (db : Nat) : Except String Catalog := do
  let pTbl := c.GetNextOid
  let o1 := pTbl.2.GetNextOid
  let o2 := o1.2.GetNextOid
  let o3 := o2.2.GetNextOid
  let o4 := o3.2.GetNextOid
  let o5 := o4.2.GetNextOid
  let t0 := (((((⟨pTbl.1, [], []⟩ : SqlTableRW).DefineColumn "oid" .INTEGER false o1.1).DefineColumn
      "typname" .VARCHAR false o2.1).DefineColumn "typnamespace" .INTEGER false o3.1).DefineColumn
      "typlen" .SMALLINT false o4.1).DefineColumn "typtype" .VARCHAR false o5.1
  let p6 := o5.2.AddUnusedSchemaColumns t0 pg_type_unused_cols
  let c := p6.2.registerTable db "pg_type" p6.1
  let catNs ← match NamespaceHandle_NameToOid c db "pg_catalog" with
    | some n => pure n
    | none => Except.error "null namespace entry dereference"
  let toid := pTbl.1
  let c := c.insertTypeRow toid "boolean" catNs (TypeUtil_GetTypeSize .BOOLEAN)
  let c := c.insertTypeRow toid "tinyint" catNs (TypeUtil_GetTypeSize .TINYINT)
  let c := c.insertTypeRow toid "smallint" catNs (TypeUtil_GetTypeSize .SMALLINT)
  let c := c.insertTypeRow toid "integer" catNs (TypeUtil_GetTypeSize .INTEGER)
  let c := c.insertTypeRow toid "date" catNs (TypeUtil_GetTypeSize .DATE)
  let c := c.insertTypeRow toid "bigint" catNs (TypeUtil_GetTypeSize .BIGINT)
  let c := c.insertTypeRow toid "decimal" catNs (TypeUtil_GetTypeSize .DECIMAL)
  let c := c.insertTypeRow toid "timestamp" catNs (TypeUtil_GetTypeSize .TIMESTAMP)
  pure (c.insertTypeRow toid "varchar" catNs (-1))

/-- The registry consistency invariant of spec section 3: every table oid
present in the id map of a database has exactly one name bound to it in
that database's name map. -/
def registryInv (c : Catalog) : Prop :=
  ∀ db ∈ c.map_.map Prod.fst,
    ∀ toid ∈ (assocFind? db c.map_).getD [],
      (((assocFind? db c.name_map_).getD []).countP (fun p => decide (p.2 = toid))) = 1

instance (c : Catalog) : Decidable (registryInv c) := by
  unfold registryInv
  infer_instance

/-- Well-formedness of the registry representation: each database key
occurs at most once in each map (always true of `std::unordered_map`,
maintained by construction here). -/
def wfKeys (c : Catalog) : Prop :=
  (c.map_.map Prod.fst).Nodup ∧ (c.name_map_.map Prod.fst).Nodup

instance (c : Catalog) : Decidable (wfKeys c) := by
  unfold wfKeys
  infer_instance

/-- The rows of a relation reached through the registry, `[]` when the
lookup fails (used only to phrase theorems about states where it
succeeds). -/
def tableRows (c : Catalog) (db : Nat) (name : String) : List (List Value) :=
  match c.GetDatabaseCatalogByName db name with
  | .found t => t.rows
  | _ => []

/-- The rows of the `pg_tablespace` relation held in the catalog member. -/
def tablespaceRows (c : Catalog) : List (List Value) :=
  match c.getTable c.pg_tablespace_ with
  | some t => t.rows
  | none => []

/-- A `pg_class` row for a user-created relation: encoded object address
424242, table oid 2000, name `usertab`, the bootstrapped `public` namespace
oid (1024) and `pg_default` tablespace oid (1012). -/
def demoUserRow : List Value :=
  [.integer 424242, .integer 2000, .varchar "usertab", .integer 1024, .integer 1012]

/-- The bootstrapped catalog after a user relation was recorded in the
default database's `pg_class` relation (table oid 1025 after bootstrap). -/
def demoCatalog : Catalog := bootCatalog.insertRow 1025 demoUserRow

/-- The `pg_class` relation object of `demoCatalog`. -/
def demoPgClass : SqlTableRW := (demoCatalog.getTable 1025).getD ⟨0, [], []⟩

/-- The `pg_database` relation object of `bootCatalog`. -/
def bootPgDatabaseTbl : SqlTableRW := (bootCatalog.getTable bootCatalog.pg_database_).getD ⟨0, [], []⟩

/-- The catalog after `CreateDatabase(txn, "newdb")` on the bootstrapped
state. -/
def bootAfterCreate : Catalog :=
  match bootCatalog.CreateDatabase "newdb" with
  | .ok p => p.1
  | .error _ => initCatalog

/-- The catalog after creating and then deleting database `newdb`. -/
def bootAfterCreateDelete : Catalog :=
  match bootAfterCreate.DeleteDatabase "newdb" with
  | .ok c => c
  | _ => initCatalog

/-- The catalog after `DeleteDatabase(txn, "terrier")` on the bootstrapped
state. -/
def bootAfterDelete : Catalog :=
  match bootCatalog.DeleteDatabase "terrier" with
  | .ok c => c
  | _ => initCatalog

/-- The catalog after invoking the (otherwise dead) `CreatePGType` on the
bootstrapped default database. -/
def afterPGType : Catalog :=
  match bootCatalog.CreatePGType DEFAULT_DATABASE_OID with
  | .ok c => c
  | .error _ => initCatalog

/-! Helper lemmas about the association-list primitives. -/

theorem assocFind?_insert_self {κ β : Type} [DecidableEq κ] (k : κ) (v : β) (l : List (κ × β)) :
    assocFind? k (assocInsert k v l) = some v := by
  induction l with
  | nil => simp [assocInsert, assocFind?]
  | cons hd tl ih =>
    by_cases h : k = hd.1
    · simp [assocInsert, assocFind?, h]
    · simpa [assocInsert, assocFind?, h] using ih

theorem assocFind?_insert_ne {κ β : Type} [DecidableEq κ] {k k2 : κ} (v : β)
    (l : List (κ × β)) (h : k ≠ k2) :
    assocFind? k (assocInsert k2 v l) = assocFind? k l := by
  induction l with
  | nil => simp [assocInsert, assocFind?, h]
  | cons hd tl ih =>
    by_cases h2 : k2 = hd.1
    · subst h2
      simp [assocInsert, assocFind?, h]
    · by_cases h3 : k = hd.1 <;> simp [assocInsert, assocFind?, h2, h3, ih]

theorem assocFind?_erase_ne {κ β : Type} [DecidableEq κ] {k k2 : κ}
    (l : List (κ × β)) (h : k ≠ k2) :
    assocFind? k (assocErase k2 l) = assocFind? k l := by
  induction l with
  | nil => simp [assocErase]
  | cons hd tl ih =>
    by_cases h2 : k2 = hd.1
    · subst h2
      simp [assocErase, assocFind?, h]
    · by_cases h3 : k = hd.1 <;> simp [assocErase, assocFind?, h2, h3, ih]

theorem mem_keys_assocInsert {κ β : Type} [DecidableEq κ] {k k2 : κ} {v : β}
    {l : List (κ × β)} (h : k ∈ (assocInsert k2 v l).map Prod.fst) :
    k = k2 ∨ k ∈ l.map Prod.fst := by
  induction l with
  | nil => simpa [assocInsert] using h
  | cons hd tl ih =>
    by_cases h2 : k2 = hd.1
    · subst h2
      simpa [assocInsert] using h
    · simp only [assocInsert, if_neg h2, List.map_cons, List.mem_cons] at h
      rcases h with h | h
      · exact Or.inr (by simp [h])
      · rcases ih h with h | h
        · exact Or.inl h
        · exact Or.inr (by simp [h])

theorem mem_keys_assocErase {κ β : Type} [DecidableEq κ] {k k2 : κ}
    {l : List (κ × β)} (h : k ∈ (assocErase k2 l).map Prod.fst) :
    k ∈ l.map Prod.fst := by
  induction l with
  | nil => simp [assocErase] at h
  | cons hd tl ih =>
    by_cases h2 : k2 = hd.1
    · simp only [assocErase, if_pos h2] at h
      simp [h]
    · simp only [assocErase, if_neg h2, List.map_cons, List.mem_cons] at h
      rcases h with h | h
      · simp [h]
      · simp [ih h]

theorem not_mem_keys_assocErase_self {κ β : Type} [DecidableEq κ] {k : κ}
    {l : List (κ × β)} (h : (l.map Prod.fst).Nodup) :
    k ∉ (assocErase k l).map Prod.fst := by
  induction l with
  | nil => simp [assocErase]
  | cons hd tl ih =>
    simp only [List.map_cons, List.nodup_cons] at h
    by_cases h2 : k = hd.1
    · subst h2
      simpa [assocErase] using h.1
    · simp only [assocErase, if_neg h2, List.map_cons, List.mem_cons]
      rintro (h3 | h3)
      · exact h2 h3
      · exact ih h.2 h3

theorem mem_keys_of_assocFind?_some {κ β : Type} [DecidableEq κ] {k : κ} {v : β}
    {l : List (κ × β)} (h : assocFind? k l = some v) : k ∈ l.map Prod.fst := by
  induction l with
  | nil => simp [assocFind?] at h
  | cons hd tl ih =>
    by_cases h2 : k = hd.1
    · simp [h2]
    · simp only [assocFind?, if_neg h2] at h
      simp [ih h]

theorem mem_natInsert_self (x : Nat) (l : List Nat) : x ∈ natInsert x l := by
  unfold natInsert
  by_cases h : x ∈ l <;> simp [h]

/-! Projection lemmas: which state components each primitive touches. -/

@[simp]
theorem setTable_oid (c : Catalog) (toid : Nat) (t : SqlTableRW) :
    (c.setTable toid t).oid_ = c.oid_ := rfl

@[simp]
theorem setTable_map (c : Catalog) (toid : Nat) (t : SqlTableRW) :
    (c.setTable toid t).map_ = c.map_ := rfl

@[simp]
theorem setTable_name_map (c : Catalog) (toid : Nat) (t : SqlTableRW) :
    (c.setTable toid t).name_map_ = c.name_map_ := rfl

@[simp]
theorem setTable_pg_database (c : Catalog) (toid : Nat) (t : SqlTableRW) :
    (c.setTable toid t).pg_database_ = c.pg_database_ := rfl

@[simp]
theorem setTable_pg_tablespace (c : Catalog) (toid : Nat) (t : SqlTableRW) :
    (c.setTable toid t).pg_tablespace_ = c.pg_tablespace_ := rfl

@[simp]
theorem insertRow_oid (c : Catalog) (toid : Nat) (row : List Value) :
    (c.insertRow toid row).oid_ = c.oid_ := by
  unfold Catalog.insertRow
  cases assocFind? toid c.store <;> rfl

@[simp]
theorem insertRow_map (c : Catalog) (toid : Nat) (row : List Value) :
    (c.insertRow toid row).map_ = c.map_ := by
  unfold Catalog.insertRow
  cases assocFind? toid c.store <;> rfl

@[simp]
theorem insertRow_name_map (c : Catalog) (toid : Nat) (row : List Value) :
    (c.insertRow toid row).name_map_ = c.name_map_ := by
  unfold Catalog.insertRow
  cases assocFind? toid c.store <;> rfl

@[simp]
theorem insertRow_pg_database (c : Catalog) (toid : Nat) (row : List Value) :
    (c.insertRow toid row).pg_database_ = c.pg_database_ := by
  unfold Catalog.insertRow
  cases assocFind? toid c.store <;> rfl

@[simp]
theorem insertRow_pg_tablespace (c : Catalog) (toid : Nat) (row : List Value) :
    (c.insertRow toid row).pg_tablespace_ = c.pg_tablespace_ := by
  unfold Catalog.insertRow
  cases assocFind? toid c.store <;> rfl

theorem insertRow_getTable_self {c : Catalog} {toid : Nat} {t : SqlTableRW} (row : List Value)
    (h : c.getTable toid = some t) :
    (c.insertRow toid row).getTable toid = some (t.InsertRow row) := by
  unfold Catalog.insertRow
  unfold Catalog.getTable at h
  rw [h]
  simp [Catalog.getTable, Catalog.setTable, assocFind?_insert_self]

theorem insertRow_getTable_ne {c : Catalog} {toid toid2 : Nat} (row : List Value)
    (h : toid ≠ toid2) :
    (c.insertRow toid2 row).getTable toid = c.getTable toid := by
  unfold Catalog.insertRow
  cases h2 : assocFind? toid2 c.store
  · rfl
  · simp [Catalog.getTable, Catalog.setTable, assocFind?_insert_ne _ _ h]

/-! Behavioural lemmas about the embedded operations. -/

theorem SetUnusedColumns_ok (cols : List SchemaCols)
    (h : ∀ col ∈ cols, supportedUnusedType col) (vec : List Value) :
    SetUnusedColumns vec cols = .ok (vec ++ cols.map defaultValueOf) := by
  induction cols generalizing vec with
  | nil => simp [SetUnusedColumns]
  | cons col rest ih =>
    have hcol : supportedUnusedType col := h col (by simp)
    have hrest : ∀ c ∈ rest, supportedUnusedType c := fun c hc => h c (by simp [hc])
    rcases hcol with h1 | h1 | h1 <;>
      simp [SetUnusedColumns, h1, defaultValueOf, ih hrest, List.append_assoc]

theorem SetUnusedColumns_error (cols : List SchemaCols)
    (h : ∃ col ∈ cols, ¬ supportedUnusedType col) (vec : List Value) :
    SetUnusedColumns vec cols = .error "unsupported type in SetUnusedSchemaColumns (by vec)" := by
  induction cols generalizing vec with
  | nil => simp at h
  | cons col rest ih =>
    rcases h with ⟨bad, hmem, hbad⟩
    rcases List.mem_cons.mp hmem with h1 | h1
    · subst h1
      cases htype : bad.type_id <;>
        simp [supportedUnusedType, htype] at hbad ⊢ <;> simp [SetUnusedColumns, htype]
    · cases htype : col.type_id <;> simp [SetUnusedColumns, htype] <;>
        exact ih ⟨bad, h1, hbad⟩ _

theorem allocList_eq (n : Nat) : ∀ (c : Catalog), c.oid_ < UINT32_MOD →
    c.allocList n = (List.range n).map (fun i => (c.oid_ + i) % UINT32_MOD) := by
  induction n with
  | zero => intro c _; simp [Catalog.allocList]
  | succ n ih =>
    intro c hlt
    have hnext : ((c.GetNextOid).2).oid_ = (c.oid_ + 1) % UINT32_MOD := rfl
    have hlt2 : ((c.GetNextOid).2).oid_ < UINT32_MOD := by
      rw [hnext]
      exact Nat.mod_lt _ (by decide)
    have step := ih (c.GetNextOid).2 hlt2
    show c.oid_ :: ((c.GetNextOid).2).allocList n = _
    rw [step, hnext, List.range_succ_eq_map, List.map_cons, List.map_map]
    congr 1
    · exact (Nat.mod_eq_of_lt (by simpa using hlt)).symm
    · apply List.map_congr_left
      intro i _
      simp only [Function.comp]
      rw [Nat.mod_add_mod]
      congr 1
      omega

theorem destroyLoop_eq (catOid : Nat) (rows : List (List Value)) :
    destroyLoop catOid rows =
      (rows.filter (fun r => decide (rowNs r ≠ catOid))).map
        (fun r => Action.destroyObject (rowPtr r)) := by
  induction rows with
  | nil => rfl
  | cons r rest ih =>
    by_cases h : rowNs r = catOid <;> simp [destroyLoop, List.filter_cons, h, ih]

theorem destroyLoop_actions (catOid : Nat) (rows : List (List Value)) :
    ∀ a ∈ destroyLoop catOid rows, ∃ p, a = Action.destroyObject p := by
  intro a ha
  rw [destroyLoop_eq] at ha
  rcases List.mem_map.mp ha with ⟨r, _, hr⟩
  exact ⟨rowPtr r, hr.symm⟩

theorem registerTable_lookup (c : Catalog) (db : Nat) (name : String) (t : SqlTableRW) :
    (c.registerTable db name t).GetDatabaseCatalogByName db name = .found t := by
  unfold Catalog.registerTable Catalog.GetDatabaseCatalogByName Catalog.nameMapInsert
    Catalog.GetDatabaseCatalogById Catalog.mapInsert Catalog.getTable Catalog.setTable
  simp [assocFind?_insert_self, mem_natInsert_self]

theorem CreateDatabase_eq (c : Catalog) (name : String) :
    c.CreateDatabase name = .ok
      (let c1 := ({ c with oid_ := (c.oid_ + 1) % UINT32_MOD } : Catalog).insertRow c.pg_database_
        [Value.integer (c.oid_ : Int), Value.varchar name, Value.integer 0, Value.null .VARCHAR]
       { c1 with map_ := assocInsert c.oid_ [] c1.map_ }, ()) := rfl

/-! Claim C2: bootstrap row counts. -/

/-- Claim C2 counterexample: immediately after bootstrap of the default
database, `pg_class` contains 5 rows, not the 4 the claim states —
`CreatePGClass` also inserts a descriptor row for `pg_attribute`. -/
theorem claim_C2_counterexample :
    (tableRows bootCatalog DEFAULT_DATABASE_OID "pg_class").length = 5
    ∧ (tableRows bootCatalog DEFAULT_DATABASE_OID "pg_class").length ≠ 4 :=
  ⟨rfl, by decide⟩

/-- Claim C2 (amended): immediately after bootstrap of the default
database, `pg_tablespace` contains exactly 2 rows (`pg_global` inserted
before `pg_default`) and `pg_class` contains exactly 5 rows, one each for
`pg_database`, `pg_tablespace`, `pg_namespace`, `pg_class` and
`pg_attribute`, each row carrying a namespace id and tablespace id that
resolve to an existing `pg_namespace` / `pg_tablespace` row. -/
theorem claim_C2_amended :
    BootstrapResult = .ok bootCatalog
    ∧ (tablespaceRows bootCatalog).map (fun r => r.get? 1) =
        [some (.varchar "pg_global"), some (.varchar "pg_default")]
    ∧ (tableRows bootCatalog DEFAULT_DATABASE_OID "pg_class").map (fun r => r.get? 2) =
        [some (.varchar "pg_database"), some (.varchar "pg_tablespace"),
         some (.varchar "pg_namespace"), some (.varchar "pg_class"),
         some (.varchar "pg_attribute")]
    ∧ ((tableRows bootCatalog DEFAULT_DATABASE_OID "pg_class").all (fun r =>
          ((tableRows bootCatalog DEFAULT_DATABASE_OID "pg_namespace").any (fun nr =>
              decide (nr.get? 0 = some (Value.integer (rowNs r : Int)))))
          && ((tablespaceRows bootCatalog).any (fun tr =>
              decide (tr.get? 0 = some (Value.integer (rowTs r : Int))))))) = true :=
  ⟨rfl, rfl, rfl, rfl⟩

/-! Claim C8: pg_type at bootstrap. -/

/-- Claim C8 counterexample: bootstrap does not create `pg_type` —
`BootstrapDatabase` never invokes `CreatePGType`, so after bootstrap the
default database's name map has no `pg_type` entry and the registry lookup
for it crashes on the missing key. -/
theorem claim_C8_counterexample :
    assocFind? "pg_type" ((assocFind? DEFAULT_DATABASE_OID bootCatalog.name_map_).getD []) = none
    ∧ bootCatalog.GetDatabaseCatalogByName DEFAULT_DATABASE_OID "pg_type" =
        .crash "std::out_of_range: name map::at" :=
  ⟨rfl, rfl⟩

/-- Claim C8 (amended): bootstrap itself does not create the `pg_type`
relation; the catalog defines a `CreatePGType` procedure that it never
invokes, and that procedure, run on the bootstrapped default database,
creates and registers `pg_type` and populates it with exactly one row per
built-in primitive type (boolean, tinyint, smallint, integer, date,
bigint, decimal, timestamp, varchar), each tagged with the `pg_catalog`
namespace id. -/
theorem claim_C8_amended :
    assocFind? "pg_type" ((assocFind? DEFAULT_DATABASE_OID bootCatalog.name_map_).getD []) = none
    ∧ bootCatalog.CreatePGType DEFAULT_DATABASE_OID = .ok afterPGType
    ∧ assocFind? "pg_type" ((assocFind? DEFAULT_DATABASE_OID afterPGType.name_map_).getD []) = some 1036
    ∧ NamespaceHandle_NameToOid bootCatalog DEFAULT_DATABASE_OID "pg_catalog" = some 1023
    ∧ (tableRows afterPGType DEFAULT_DATABASE_OID "pg_type").map (fun r => r.get? 1) =
        [some (.varchar "boolean"), some (.varchar "tinyint"), some (.varchar "smallint"),
         some (.varchar "integer"), some (.varchar "date"), some (.varchar "bigint"),
         some (.varchar "decimal"), some (.varchar "timestamp"), some (.varchar "varchar")]
    ∧ ((tableRows afterPGType DEFAULT_DATABASE_OID "pg_type").all (fun r =>
          decide (r.get? 2 = some (Value.integer 1023)))) = true :=
  ⟨rfl, rfl, rfl, rfl, rfl, rfl⟩

/-! Claim C3: registry lookups on absent keys. -/

/-- Claim C3 counterexample: the registry lookups do not return a typed
NotFound condition on an absent key — `GetDatabaseCatalog` indexes both
maps with `at`, whose `std::out_of_range` exception is never caught and
terminates the process.  Concretely, looking up table 1001 under the absent
database id 777, or an absent table name under the bootstrapped default
database, crashes instead of producing NotFound. -/
theorem claim_C3_counterexample :
    bootCatalog.GetDatabaseCatalogById 777 1001 = .crash "std::out_of_range: map_::at"
    ∧ bootCatalog.GetDatabaseCatalogById 777 1001 ≠ .notFound
    ∧ bootCatalog.GetDatabaseCatalogByName DEFAULT_DATABASE_OID "no_such_table" =
        .crash "std::out_of_range: name map::at"
    ∧ bootCatalog.GetDatabaseCatalogByName DEFAULT_DATABASE_OID "no_such_table" ≠ .notFound :=
  ⟨rfl, by decide, rfl, by decide⟩

/-- Claim C3 (amended): for every database id and every table id or name,
the registry lookups (`GetDatabaseCatalog`) never produce a typed NotFound
result: an absent key raises an uncaught `std::out_of_range` (terminating
the process), and a present key returns the relation. -/
theorem claim_C3_amended (c : Catalog) (db toid : Nat) (name : String) :
    (assocFind? db c.map_ = none →
      c.GetDatabaseCatalogById db toid = .crash "std::out_of_range: map_::at")
    ∧ (∀ tids, assocFind? db c.map_ = some tids → toid ∉ tids →
      c.GetDatabaseCatalogById db toid = .crash "std::out_of_range: table map::at")
    ∧ (assocFind? db c.name_map_ = none →
      c.GetDatabaseCatalogByName db name = .crash "std::out_of_range: name_map_::at")
    ∧ (∀ nm, assocFind? db c.name_map_ = some nm → assocFind? name nm = none →
      c.GetDatabaseCatalogByName db name = .crash "std::out_of_range: name map::at")
    ∧ (∀ tids t, assocFind? db c.map_ = some tids → toid ∈ tids → c.getTable toid = some t →
      c.GetDatabaseCatalogById db toid = .found t)
    ∧ c.GetDatabaseCatalogById db toid ≠ .notFound
    ∧ c.GetDatabaseCatalogByName db name ≠ .notFound := by
  refine ⟨?_, ?_, ?_, ?_, ?_, ?_, ?_⟩
  · intro h
    simp [Catalog.GetDatabaseCatalogById, h]
  · intro tids h hmem
    simp [Catalog.GetDatabaseCatalogById, h, hmem]
  · intro h
    simp [Catalog.GetDatabaseCatalogByName, h]
  · intro nm h hname
    simp [Catalog.GetDatabaseCatalogByName, h, hname]
  · intro tids t h hmem ht
    simp [Catalog.GetDatabaseCatalogById, h, hmem, ht]
  · unfold Catalog.GetDatabaseCatalogById
    rcases h1 : assocFind? db c.map_ with _ | tids
    · simp
    · by_cases hmem : toid ∈ tids
      · rcases h2 : c.getTable toid with _ | t <;> simp [hmem, h2]
      · simp [hmem]
  · unfold Catalog.GetDatabaseCatalogByName
    rcases h1 : assocFind? db c.name_map_ with _ | nm
    · simp
    · rcases h2 : assocFind? name nm with _ | toid2
      · simp [h2]
      · simp only [h2]
        unfold Catalog.GetDatabaseCatalogById
        rcases h3 : assocFind? db c.map_ with _ | tids
        · simp
        · by_cases hmem : toid2 ∈ tids
          · rcases h4 : c.getTable toid2 with _ | t <;> simp [hmem, h4]
          · simp [hmem]

/-- Claim C3 witness: the amended behaviour at concrete inputs — crashes on
the absent database id 777, on an absent table id under the default
database, and on an absent table name; a successful typed lookup of
`pg_database` (table oid 1001). -/
theorem claim_C3_witness :
    bootCatalog.GetDatabaseCatalogById 777 1001 = .crash "std::out_of_range: map_::at"
    ∧ bootCatalog.GetDatabaseCatalogById DEFAULT_DATABASE_OID 9999 =
        .crash "std::out_of_range: table map::at"
    ∧ bootCatalog.GetDatabaseCatalogByName 777 "pg_class" =
        .crash "std::out_of_range: name_map_::at"
    ∧ bootCatalog.GetDatabaseCatalogByName DEFAULT_DATABASE_OID "ghost" =
        .crash "std::out_of_range: name map::at"
    ∧ bootCatalog.GetDatabaseCatalogById DEFAULT_DATABASE_OID 1001 = .found bootPgDatabaseTbl
    ∧ bootCatalog.GetDatabaseCatalogById DEFAULT_DATABASE_OID 1001 ≠ .notFound :=
  ⟨(claim_C3_amended bootCatalog 777 1001 "x").1 rfl,
   (claim_C3_amended bootCatalog DEFAULT_DATABASE_OID 9999 "x").2.1 _ rfl (by decide),
   (claim_C3_amended bootCatalog 777 1001 "pg_class").2.2.1 rfl,
   (claim_C3_amended bootCatalog DEFAULT_DATABASE_OID 1001 "ghost").2.2.2.1 _ rfl rfl,
   (claim_C3_amended bootCatalog DEFAULT_DATABASE_OID 1001 "x").2.2.2.2.1 _ bootPgDatabaseTbl
     rfl (by decide) rfl,
   (claim_C3_amended bootCatalog DEFAULT_DATABASE_OID 1001 "x").2.2.2.2.2.1⟩

/-! Claim C5: default filling of unused columns. -/

/-- Claim C5: for every list of schema-declared-but-unused columns,
`SetUnusedColumns` appends `false` for boolean, `0` for integer and a
varchar null for varchar columns, in the given column order; any column of
another type raises the unsupported-type error and no filled row is
produced. -/
theorem claim_C5 (vec : List Value) (cols : List SchemaCols) :
    ((∀ col ∈ cols, supportedUnusedType col) →
      SetUnusedColumns vec cols = .ok (vec ++ cols.map defaultValueOf))
    ∧ ((∃ col ∈ cols, ¬ supportedUnusedType col) →
      SetUnusedColumns vec cols = .error "unsupported type in SetUnusedSchemaColumns (by vec)")
    ∧ (∀ s, defaultValueOf ⟨s, .BOOLEAN⟩ = .boolean false)
    ∧ (∀ s, defaultValueOf ⟨s, .INTEGER⟩ = .integer 0)
    ∧ (∀ s, defaultValueOf ⟨s, .VARCHAR⟩ = .null .VARCHAR) :=
  ⟨fun h => SetUnusedColumns_ok cols h vec,
   fun h => SetUnusedColumns_error cols h vec,
   fun _ => rfl, fun _ => rfl, fun _ => rfl⟩

/-- Claim C5 witness: concrete default filling for one column of each
supported type, and the unsupported-type error for a timestamp column. -/
theorem claim_C5_witness :
    SetUnusedColumns [] [⟨"b", .BOOLEAN⟩, ⟨"i", .INTEGER⟩, ⟨"v", .VARCHAR⟩] =
      .ok [.boolean false, .integer 0, .null .VARCHAR]
    ∧ SetUnusedColumns [] [⟨"t", .TIMESTAMP⟩] =
      .error "unsupported type in SetUnusedSchemaColumns (by vec)" :=
  ⟨(claim_C5 [] [⟨"b", .BOOLEAN⟩, ⟨"i", .INTEGER⟩, ⟨"v", .VARCHAR⟩]).1 (by decide),
   (claim_C5 [] [⟨"t", .TIMESTAMP⟩]).2.1 ⟨⟨"t", .TIMESTAMP⟩, by decide, by decide⟩⟩

/-! Claim C4: the identifier allocator. -/

theorem allocList_length (c : Catalog) (hc : c.oid_ < UINT32_MOD) (n : Nat) :
    (c.allocList n).length = n := by
  rw [allocList_eq n c hc]
  simp

theorem allocList_getElem? (c : Catalog) (hc : c.oid_ < UINT32_MOD) {n i : Nat} (h : i < n) :
    (c.allocList n)[i]? = some ((c.oid_ + i) % UINT32_MOD) := by
  rw [allocList_eq n c hc, List.getElem?_map, List.getElem?_range h]
  rfl

/-- Claim C4 counterexample: the allocator counter is a `uint32_t` and
wraps: in the sequence of `2^32 + 1` calls starting from the fixed start
constant, the first and the last call return the same value, so the
returned values are neither pairwise distinct nor strictly increasing. -/
theorem claim_C4_counterexample :
    ¬ (initCatalog.allocList (UINT32_MOD + 1)).Pairwise (· < ·)
    ∧ ¬ (initCatalog.allocList (UINT32_MOD + 1)).Pairwise (· ≠ ·) := by
  have hc : initCatalog.oid_ < UINT32_MOD := by decide
  have hlen : (initCatalog.allocList (UINT32_MOD + 1)).length = UINT32_MOD + 1 :=
    allocList_length initCatalog hc _
  have hi0 : 0 < (initCatalog.allocList (UINT32_MOD + 1)).length := by omega
  have hi1 : UINT32_MOD < (initCatalog.allocList (UINT32_MOD + 1)).length := by omega
  have h0 : (initCatalog.allocList (UINT32_MOD + 1)).get ⟨0, hi0⟩ = START_OID := by
    have h := allocList_getElem? initCatalog hc (show 0 < UINT32_MOD + 1 by omega)
    rw [List.getElem?_eq_getElem hi0] at h
    have h2 := Option.some.inj h
    rw [List.get_eq_getElem]
    exact h2.trans (by decide)
  have h1 : (initCatalog.allocList (UINT32_MOD + 1)).get ⟨UINT32_MOD, hi1⟩ = START_OID := by
    have h := allocList_getElem? initCatalog hc (show UINT32_MOD < UINT32_MOD + 1 by omega)
    rw [List.getElem?_eq_getElem hi1] at h
    have h2 := Option.some.inj h
    rw [List.get_eq_getElem]
    refine h2.trans ?_
    show (initCatalog.oid_ + UINT32_MOD) % UINT32_MOD = START_OID
    rw [Nat.add_mod_right]
    decide
  have hlt : (⟨0, hi0⟩ : Fin (initCatalog.allocList (UINT32_MOD + 1)).length) < ⟨UINT32_MOD, hi1⟩ :=
    Fin.mk_lt_mk.mpr (by decide)
  constructor
  · intro hp
    have h := List.pairwise_iff_get.mp hp ⟨0, hi0⟩ ⟨UINT32_MOD, hi1⟩ hlt
    rw [h0, h1] at h
    exact absurd h (by omega)
  · intro hp
    have h := List.pairwise_iff_get.mp hp ⟨0, hi0⟩ ⟨UINT32_MOD, hi1⟩ hlt
    rw [h0, h1] at h
    exact h rfl

/-- Claim C4 (amended): for every sequence of `N` calls to the identifier
allocator starting from the fixed start constant, with `N` at most
`2^32 - START_OID` (so that the 32-bit counter does not wrap), the `N`
returned values are pairwise distinct and strictly increasing. -/
theorem claim_C4_amended (N : Nat) (hN : N ≤ UINT32_MOD - START_OID) :
    (initCatalog.allocList N).Pairwise (· < ·)
    ∧ (initCatalog.allocList N).Pairwise (· ≠ ·) := by
  have hc : initCatalog.oid_ < UINT32_MOD := by decide
  have hN2 : N ≤ 4294966295 := hN
  have key : (initCatalog.allocList N).Pairwise (· < ·) := by
    rw [allocList_eq N initCatalog hc, List.pairwise_map]
    refine List.Pairwise.imp_of_mem ?_ (List.pairwise_lt_range N)
    intro a b ha hb hab
    have ha2 : a < N := List.mem_range.mp ha
    have hb2 : b < N := List.mem_range.mp hb
    show (1001 + a) % 4294967296 < (1001 + b) % 4294967296
    rw [Nat.mod_eq_of_lt (by omega), Nat.mod_eq_of_lt (by omega)]
    omega
  exact ⟨key, key.imp Nat.ne_of_lt⟩

/-- Claim C4 witness: three sequential calls from the start constant stay
within the no-wrap bound and return strictly increasing, pairwise distinct
values. -/
theorem claim_C4_witness :
    3 ≤ UINT32_MOD - START_OID
    ∧ (initCatalog.allocList 3).Pairwise (· < ·)
    ∧ (initCatalog.allocList 3).Pairwise (· ≠ ·) :=
  ⟨by decide, (claim_C4_amended 3 (by decide)).1, (claim_C4_amended 3 (by decide)).2⟩

/-! Claim C6: CreateDatabase. -/

/-- Claim C6 counterexample: `CreateDatabase` does not return the new
`DatabaseId` to the caller — the C++ function returns `void`, so its return
value (`Unit`) carries no information: no decoding of the returned value
can recover the allocated identifier for every call, since calls from
states with different counters return the identical value. -/
theorem claim_C6_counterexample :
    ¬ ∃ ret : Unit → Nat, ∀ (c : Catalog) (name : String) (c2 : Catalog) (u : Unit),
        c.CreateDatabase name = .ok (c2, u) → ret u = c.oid_ := by
  rintro ⟨f, h⟩
  have h1 := h initCatalog "a" _ () (CreateDatabase_eq initCatalog "a")
  have h2 := h { initCatalog with oid_ := 1002 } "b" _ ()
    (CreateDatabase_eq { initCatalog with oid_ := 1002 } "b")
  have e1 : f () = 1001 := h1
  have e2 : f () = 1002 := h2
  omega

/-- Claim C6 (amended): for every name, `CreateDatabase` allocates a fresh
identifier (the current counter value, advancing the counter), inserts
exactly one row into `pg_database` carrying that identifier and the name,
and establishes an empty per-database entry in the registry's id map for
the new identifier; the name map and every other relation are untouched,
and the function returns `void` — the new identifier is not returned to the
caller. -/
theorem claim_C6_amended (c : Catalog) (name : String) (tbl : SqlTableRW)
    (htbl : c.getTable c.pg_database_ = some tbl) :
    ∃ c2, c.CreateDatabase name = .ok (c2, ())
      ∧ c2.getTable c.pg_database_ = some
          { tbl with rows := tbl.rows ++
              [[Value.integer (c.oid_ : Int), Value.varchar name, Value.integer 0, Value.null .VARCHAR]] }
      ∧ assocFind? c.oid_ c2.map_ = some []
      ∧ c2.name_map_ = c.name_map_
      ∧ c2.pg_database_ = c.pg_database_
      ∧ c2.pg_tablespace_ = c.pg_tablespace_
      ∧ c2.oid_ = (c.oid_ + 1) % UINT32_MOD
      ∧ (∀ toid2, toid2 ≠ c.pg_database_ → c2.getTable toid2 = c.getTable toid2) := by
  have htbl' : ({ c with oid_ := (c.oid_ + 1) % UINT32_MOD } : Catalog).getTable c.pg_database_ =
      some tbl := htbl
  have e1 := insertRow_getTable_self
    [Value.integer (c.oid_ : Int), Value.varchar name, Value.integer 0, Value.null .VARCHAR] htbl'
  refine ⟨_, CreateDatabase_eq c name, ?_, ?_, ?_, ?_, ?_, ?_, ?_⟩
  · exact e1
  · exact assocFind?_insert_self _ _ _
  · simp
  · simp
  · simp
  · simp
  · intro toid2 hne
    exact @insertRow_getTable_ne { c with oid_ := (c.oid_ + 1) % UINT32_MOD } toid2
      c.pg_database_ _ hne

/-- Claim C6 witness: creating `newdb` on the bootstrapped catalog inserts
exactly one `pg_database` row carrying the fresh identifier and the name,
adds an empty id-map entry for it, and leaves everything else unchanged. -/
theorem claim_C6_witness :
    bootCatalog.getTable bootCatalog.pg_database_ = some bootPgDatabaseTbl
    ∧ ∃ c2, bootCatalog.CreateDatabase "newdb" = .ok (c2, ())
        ∧ c2.getTable bootCatalog.pg_database_ = some
            { bootPgDatabaseTbl with rows := bootPgDatabaseTbl.rows ++
                [[Value.integer (bootCatalog.oid_ : Int), Value.varchar "newdb",
                  Value.integer 0, Value.null .VARCHAR]] }
        ∧ assocFind? bootCatalog.oid_ c2.map_ = some []
        ∧ c2.name_map_ = bootCatalog.name_map_
        ∧ c2.pg_database_ = bootCatalog.pg_database_
        ∧ c2.pg_tablespace_ = bootCatalog.pg_tablespace_
        ∧ c2.oid_ = (bootCatalog.oid_ + 1) % UINT32_MOD
        ∧ (∀ toid2, toid2 ≠ bootCatalog.pg_database_ →
            c2.getTable toid2 = bootCatalog.getTable toid2) :=
  ⟨rfl, claim_C6_amended bootCatalog "newdb" bootPgDatabaseTbl rfl⟩

/-! Claim C7: DeleteDatabase. -/

@[simp]
theorem InsertRow_rows (t : SqlTableRW) (row : List Value) :
    (t.InsertRow row).rows = t.rows ++ [row] := rfl

/-- Claim C7 counterexample: deleting a database whose name has no
`pg_database` row does not fail with a typed NotFound condition — the null
entry returned by the name lookup is dereferenced without a check, which is
a crash (undefined behaviour), as the concrete lookup of `nosuchdb` on the
bootstrapped catalog shows. -/
theorem claim_C7_counterexample :
    bootCatalog.DeleteDatabase "nosuchdb" = .crash "null entry dereference: GetDatabaseOid"
    ∧ bootCatalog.DeleteDatabase "nosuchdb" ≠ .notFound :=
  ⟨rfl, by decide⟩

/-- Claim C7 (amended): for every name with no matching `pg_database` row,
`DeleteDatabase` dereferences the null entry pointer and crashes (it never
produces a typed NotFound result); and after `CreateDatabase(txn, name)`
followed by `DeleteDatabase(txn, name)` on a state whose `pg_database`
rows mention neither the name nor the fresh identifier, looking the name up
through the database handle finds no entry. -/
theorem claim_C7_amended :
    (∀ (c : Catalog) (name : String), DatabaseHandle_GetDatabaseEntry c name = none →
      c.DeleteDatabase name = .crash "null entry dereference: GetDatabaseOid")
    ∧ (∀ (c : Catalog) (name : String), c.DeleteDatabase name ≠ .notFound)
    ∧ (∀ (c : Catalog) (name : String) (tbl : SqlTableRW) (c2 : Catalog),
        c.getTable c.pg_database_ = some tbl →
        (∀ r ∈ tbl.rows, r.get? 1 ≠ some (Value.varchar name)) →
        (∀ r ∈ tbl.rows, r.get? 0 ≠ some (Value.integer (c.oid_ : Int))) →
        c.CreateDatabase name = .ok (c2, ()) →
        ∃ c3, c2.DeleteDatabase name = .ok c3
          ∧ DatabaseHandle_GetDatabaseEntry c3 name = none) := by
  refine ⟨?_, ?_, ?_⟩
  · intro c name h
    simp [Catalog.DeleteDatabase, h]
  · intro c name
    rcases h : DatabaseHandle_GetDatabaseEntry c name with _ | ⟨oid, r⟩ <;>
      simp [Catalog.DeleteDatabase, h]
  · intro c name tbl c2 htbl hname hoid hcr
    rw [CreateDatabase_eq] at hcr
    have hc2 := congrArg Prod.fst (Except.ok.inj hcr)
    subst hc2
    have htbl' : ({ c with oid_ := (c.oid_ + 1) % UINT32_MOD } : Catalog).getTable c.pg_database_ =
        some tbl := htbl
    have e1 := insertRow_getTable_self
      [Value.integer (c.oid_ : Int), Value.varchar name, Value.integer 0, Value.null .VARCHAR] htbl'
    set nrow : List Value :=
      [Value.integer (c.oid_ : Int), Value.varchar name, Value.integer 0, Value.null .VARCHAR]
      with hnrow
    set c2 : Catalog :=
      (let c1 := ({ c with oid_ := (c.oid_ + 1) % UINT32_MOD } : Catalog).insertRow c.pg_database_ nrow
       { c1 with map_ := assocInsert c.oid_ [] c1.map_ })
      with hc2def
    have hpg : c2.pg_database_ = c.pg_database_ := by simp [hc2def]
    have e1' : c2.getTable c2.pg_database_ = some (tbl.InsertRow nrow) := by
      rw [hpg]
      exact e1
    have hfn : (tbl.rows ++ [nrow]).find?
        (fun r => decide (r.get? 1 = some (Value.varchar name))) = some nrow := by
      rw [List.find?_append]
      have h1 : tbl.rows.find? (fun r => decide (r.get? 1 = some (Value.varchar name))) = none :=
        List.find?_eq_none.mpr (by intro x hx; simpa using hname x hx)
      rw [h1]
      simp [hnrow]
    have hfind : DatabaseHandle_GetDatabaseEntry c2 name = some (c.oid_, nrow) := by
      unfold DatabaseHandle_GetDatabaseEntry
      rw [e1']
      simp only [InsertRow_rows, hfn]
      simp [hnrow]
    have herase : (tbl.rows ++ [nrow]).eraseP
        (fun r => decide (r.get? 0 = some (Value.integer (c.oid_ : Int)))) = tbl.rows := by
      rw [List.eraseP_append_right _ (by intro b hb; simpa using hoid b hb)]
      rw [List.eraseP_cons_of_pos (by simp [hnrow])]
      simp
    have hdel : DatabaseHandle_DeleteEntry c2 c.oid_ =
        c2.setTable c2.pg_database_ { tbl.InsertRow nrow with rows := tbl.rows } := by
      unfold DatabaseHandle_DeleteEntry
      rw [e1']
      simp only [InsertRow_rows, herase]
    refine ⟨{ DatabaseHandle_DeleteEntry c2 c.oid_ with
              map_ := assocErase c.oid_ (DatabaseHandle_DeleteEntry c2 c.oid_).map_,
              name_map_ := assocErase c.oid_ (DatabaseHandle_DeleteEntry c2 c.oid_).name_map_ },
            ?_, ?_⟩
    · show c2.DeleteDatabase name = _
      unfold Catalog.DeleteDatabase
      rw [hfind]
    · unfold DatabaseHandle_GetDatabaseEntry
      rw [show ({ DatabaseHandle_DeleteEntry c2 c.oid_ with
            map_ := assocErase c.oid_ (DatabaseHandle_DeleteEntry c2 c.oid_).map_,
            name_map_ := assocErase c.oid_ (DatabaseHandle_DeleteEntry c2 c.oid_).name_map_ } : Catalog).pg_database_
          = c2.pg_database_ from by rw [hdel]; rfl]
      rw [show ({ DatabaseHandle_DeleteEntry c2 c.oid_ with
            map_ := assocErase c.oid_ (DatabaseHandle_DeleteEntry c2 c.oid_).map_,
            name_map_ := assocErase c.oid_ (DatabaseHandle_DeleteEntry c2 c.oid_).name_map_ } : Catalog).getTable
            c2.pg_database_
          = some { tbl.InsertRow nrow with rows := tbl.rows } from by
        rw [hdel]
        simp [Catalog.getTable, Catalog.setTable, assocFind?_insert_self]]
      have h1 : tbl.rows.find? (fun r => decide (r.get? 1 = some (Value.varchar name))) = none :=
        List.find?_eq_none.mpr (by intro x hx; simpa using hname x hx)
      simp only [List.get?_eq_getElem?] at h1
      simp [h1]

/-- Claim C7 witness: on the bootstrapped catalog, deleting the unknown
name `zzz` crashes on the null entry (and is not NotFound), and creating
then deleting `newdb` leaves no `newdb` entry findable through the
database handle. -/
theorem claim_C7_witness :
    bootCatalog.DeleteDatabase "zzz" = .crash "null entry dereference: GetDatabaseOid"
    ∧ bootCatalog.DeleteDatabase "zzz" ≠ .notFound
    ∧ ∃ c3, bootAfterCreate.DeleteDatabase "newdb" = .ok c3
        ∧ DatabaseHandle_GetDatabaseEntry c3 "newdb" = none :=
  ⟨claim_C7_amended.1 bootCatalog "zzz" rfl,
   claim_C7_amended.2.1 bootCatalog "zzz",
   claim_C7_amended.2.2 bootCatalog "newdb" bootPgDatabaseTbl bootAfterCreate rfl
     (by decide) (by decide) rfl⟩

/-! Claim C1: the reclamation pass destroys exactly the non-catalog rows. -/

/-- Claim C1: for every database drop that runs the reclamation pass
(`DestroyDB`; with the database's `pg_class` relation and the `pg_catalog`
namespace oid resolvable), the emitted destruction events are exactly one
`destroyObject` of the encoded relation object per `pg_class` row whose
namespace id differs from the `pg_catalog` namespace id, in row order —
so every such row's object is destroyed exactly once, and no destruction
is performed for a row whose namespace id equals `pg_catalog`'s. -/
theorem claim_C1 (c : Catalog) (db : Nat) (tbl : SqlTableRW) (catOid : Nat)
    (res : Catalog × List Action)
    (htbl : c.GetDatabaseCatalogByName db "pg_class" = .found tbl)
    (hns : NamespaceHandle_NameToOid c db "pg_catalog" = some catOid)
    (hrun : c.DestroyDB db = .ok res) :
    res.2 = (tbl.rows.filter (fun r => decide (rowNs r ≠ catOid))).map
        (fun r => Action.destroyObject (rowPtr r))
    ∧ res.2.length = tbl.rows.countP (fun r => decide (rowNs r ≠ catOid))
    ∧ (∀ a ∈ res.2, ∃ r ∈ tbl.rows, rowNs r ≠ catOid ∧ a = Action.destroyObject (rowPtr r)) := by
  unfold Catalog.DestroyDB at hrun
  rw [htbl, hns] at hrun
  simp only [LookupResult.toExcept] at hrun
  have hres := (Except.ok.inj hrun).symm
  subst hres
  refine ⟨destroyLoop_eq catOid tbl.rows, ?_, ?_⟩
  · rw [show (destroyLoop catOid tbl.rows : List Action).length =
        ((tbl.rows.filter (fun r => decide (rowNs r ≠ catOid))).map
          (fun r => Action.destroyObject (rowPtr r))).length from by rw [destroyLoop_eq]]
    rw [List.length_map, List.countP_eq_length_filter]
  · intro a ha
    rw [show ((c, destroyLoop catOid tbl.rows) : Catalog × List Action).2 =
          destroyLoop catOid tbl.rows from rfl,
        destroyLoop_eq] at ha
    rcases List.mem_map.mp ha with ⟨r, hr, hra⟩
    have hmem := List.mem_filter.mp hr
    exact ⟨r, hmem.1, by simpa using hmem.2, hra.symm⟩

/-- Claim C1 witness: on the bootstrapped catalog extended with one
user-relation row in `pg_class` (object address 424242, namespace
`public`), the reclamation pass destroys exactly that object once and
nothing tagged with the `pg_catalog` namespace. -/
theorem claim_C1_witness :
    demoCatalog.GetDatabaseCatalogByName 1 "pg_class" = .found demoPgClass
    ∧ NamespaceHandle_NameToOid demoCatalog 1 "pg_catalog" = some 1023
    ∧ demoCatalog.DestroyDB 1 = .ok (demoCatalog, [Action.destroyObject 424242])
    ∧ [Action.destroyObject 424242] =
        (demoPgClass.rows.filter (fun r => decide (rowNs r ≠ 1023))).map
          (fun r => Action.destroyObject (rowPtr r)) :=
  ⟨rfl, rfl, rfl,
   (claim_C1 demoCatalog 1 demoPgClass 1023 (demoCatalog, [Action.destroyObject 424242])
     rfl rfl rfl).1⟩

/-! Claim C10: the reclamation pass changes nothing else. -/

/-- Claim C10: whenever `DestroyDB` completes its reclamation pass, the
catalog state it returns is the input state unchanged — no stored relation
(and in particular no `pg_class` row) is modified, neither registry map
loses an entry — and its event trace consists solely of `destroyObject`
events: it deletes no rows, erases no registry entries, and never commits
the transaction it began. -/
theorem claim_C10 (c : Catalog) (db : Nat) (res : Catalog × List Action)
    (hrun : c.DestroyDB db = .ok res) :
    res.1 = c
    ∧ (∀ toid, res.1.getTable toid = c.getTable toid)
    ∧ res.1.map_ = c.map_
    ∧ res.1.name_map_ = c.name_map_
    ∧ (∀ a ∈ res.2, ∃ p, a = Action.destroyObject p)
    ∧ Action.commitTxn ∉ res.2
    ∧ (∀ toid row, Action.deleteRow toid row ∉ res.2)
    ∧ (∀ db2, Action.eraseRegistry db2 ∉ res.2) := by
  unfold Catalog.DestroyDB at hrun
  cases h1 : (c.GetDatabaseCatalogByName db "pg_class").toExcept with
  | error e =>
    rw [h1] at hrun
    simp at hrun
  | ok pg =>
    rw [h1] at hrun
    cases h2 : NamespaceHandle_NameToOid c db "pg_catalog" with
    | none =>
      rw [h2] at hrun
      simp at hrun
    | some catOid =>
      rw [h2] at hrun
      have hres := (Except.ok.inj hrun).symm
      subst hres
      refine ⟨rfl, fun _ => rfl, rfl, rfl, destroyLoop_actions catOid pg.rows, ?_, ?_, ?_⟩
      · intro hmem
        rcases destroyLoop_actions catOid pg.rows _ hmem with ⟨p, hp⟩
        exact Action.noConfusion hp
      · intro toid row hmem
        rcases destroyLoop_actions catOid pg.rows _ hmem with ⟨p, hp⟩
        exact Action.noConfusion hp
      · intro db2 hmem
        rcases destroyLoop_actions catOid pg.rows _ hmem with ⟨p, hp⟩
        exact Action.noConfusion hp

/-- Claim C10 witness: running the reclamation pass on the bootstrapped
catalog with one user relation returns the state unchanged and a trace
holding only the one destruction event. -/
theorem claim_C10_witness :
    demoCatalog.DestroyDB 1 = .ok (demoCatalog, [Action.destroyObject 424242])
    ∧ (demoCatalog, [Action.destroyObject 424242]).1 = demoCatalog
    ∧ (∀ a ∈ (demoCatalog, [Action.destroyObject 424242]).2, ∃ p, a = Action.destroyObject p)
    ∧ Action.commitTxn ∉ (demoCatalog, [Action.destroyObject 424242]).2 :=
  ⟨rfl,
   (claim_C10 demoCatalog 1 (demoCatalog, [Action.destroyObject 424242]) rfl).1,
   (claim_C10 demoCatalog 1 (demoCatalog, [Action.destroyObject 424242]) rfl).2.2.2.2.1,
   (claim_C10 demoCatalog 1 (demoCatalog, [Action.destroyObject 424242]) rfl).2.2.2.2.2.1⟩

/-! Claim C9: the registry consistency invariant. -/

@[simp]
theorem DeleteEntry_map (c : Catalog) (oid : Nat) :
    (DatabaseHandle_DeleteEntry c oid).map_ = c.map_ := by
  unfold DatabaseHandle_DeleteEntry
  cases c.getTable c.pg_database_ <;> rfl

@[simp]
theorem DeleteEntry_name_map (c : Catalog) (oid : Nat) :
    (DatabaseHandle_DeleteEntry c oid).name_map_ = c.name_map_ := by
  unfold DatabaseHandle_DeleteEntry
  cases c.getTable c.pg_database_ <;> rfl

/-- Claim C9: the registry consistency invariant — every table oid present
in a database's id map has exactly one name bound to it in that database's
name map — holds after bootstrap and is preserved by `CreateDatabase` and
by every completing `DeleteDatabase` (on a well-formed map representation);
and a relation entered in both maps (the shared registration step of every
handle `Create`) is immediately visible to name lookups. -/
theorem claim_C9 :
    registryInv bootCatalog
    ∧ (∀ (c : Catalog) (name : String) (c2 : Catalog) (u : Unit),
        registryInv c → c.CreateDatabase name = .ok (c2, u) → registryInv c2)
    ∧ (∀ (c : Catalog) (name : String) (c2 : Catalog),
        wfKeys c → registryInv c → c.DeleteDatabase name = .ok c2 → registryInv c2)
    ∧ (∀ (c : Catalog) (db : Nat) (name : String) (t : SqlTableRW),
        (c.registerTable db name t).GetDatabaseCatalogByName db name = .found t) := by
  refine ⟨by decide, ?_, ?_, fun c db name t => registerTable_lookup c db name t⟩
  · intro c name c2 u hinv hcr
    rw [CreateDatabase_eq] at hcr
    have hc2 := congrArg Prod.fst (Except.ok.inj hcr)
    subst hc2
    intro db hdb toid htoid
    simp only [insertRow_map, insertRow_name_map] at hdb htoid ⊢
    by_cases hdbo : db = c.oid_
    · subst hdbo
      rw [assocFind?_insert_self] at htoid
      simp at htoid
    · rw [assocFind?_insert_ne _ _ hdbo] at htoid
      exact hinv db ((mem_keys_assocInsert hdb).resolve_left hdbo) toid htoid
  · intro c name c2 hwf hinv hdel
    unfold Catalog.DeleteDatabase at hdel
    cases h : DatabaseHandle_GetDatabaseEntry c name with
    | none =>
      rw [h] at hdel
      simp at hdel
    | some p =>
      rcases p with ⟨oid, r⟩
      rw [h] at hdel
      have hc2 := (OpResult.ok.inj hdel).symm
      subst hc2
      intro db hdb toid htoid
      simp only [DeleteEntry_map, DeleteEntry_name_map] at hdb htoid ⊢
      by_cases hdbo : db = oid
      · subst hdbo
        exact absurd hdb (not_mem_keys_assocErase_self hwf.1)
      · rw [assocFind?_erase_ne _ hdbo] at htoid
        rw [assocFind?_erase_ne _ hdbo]
        exact hinv db (mem_keys_assocErase hdb) toid htoid

/-- Claim C9 witness: the invariant holds on the bootstrapped catalog,
after creating `newdb`, and after deleting `terrier`; and a freshly
registered relation is immediately found by name. -/
theorem claim_C9_witness :
    registryInv bootCatalog
    ∧ (bootCatalog.CreateDatabase "newdb" = .ok (bootAfterCreate, ()) ∧ registryInv bootAfterCreate)
    ∧ (bootCatalog.DeleteDatabase "terrier" = .ok bootAfterDelete ∧ registryInv bootAfterDelete)
    ∧ (bootCatalog.registerTable 1 "newrel" ⟨5000, [], []⟩).GetDatabaseCatalogByName 1 "newrel" =
        .found ⟨5000, [], []⟩ :=
  ⟨claim_C9.1,
   ⟨rfl, claim_C9.2.1 bootCatalog "newdb" bootAfterCreate () claim_C9.1 rfl⟩,
   ⟨rfl, claim_C9.2.2.1 bootCatalog "terrier" bootAfterDelete (by decide) claim_C9.1 rfl⟩,
   claim_C9.2.2.2 bootCatalog 1 "newrel" ⟨5000, [], []⟩⟩

end TerrierCatalog
